import Mathlib

/-!
Verification of the SimpleMicroservices CRUD API (src/main.py plus the
Pydantic models in src/models/exercise.py and src/models/workout.py).

Modelling conventions, shared by every entity:

* `UUID` values are modelled as `Nat`.  The only operations the code performs
  on identifiers are equality tests and dictionary keying, so any type with
  decidable equality is a faithful model.
* `datetime` timestamps are modelled as `Nat`.  Both audit fields of a Read
  model are produced by `datetime.utcnow` default factories at construction
  time; we pass the construction instant explicitly as a `now : Nat` argument.
* `date` values (`workout_date`, `birth_date`) are modelled as `String` in
  canonical `YYYY-MM-DD` rendering: the code only ever compares
  `str(value) == filter`, and the canonical rendering is injective on dates.
* `float` fields (`calories_per_minute`, `calories_burned`) are modelled as
  `Int`: the code never computes with them, it only stores, merges and
  returns them, so any inhabited type with decidable equality is faithful.
* Each in-memory "database" (a Python `dict` keyed by UUID) is modelled as an
  association list `Store α := List (Nat × α)` with first-occurrence lookup,
  in-place overwrite on insert, and first-occurrence removal on delete —
  exactly the observable behaviour of a `dict`, whose keys are unique, which
  corresponds to association lists satisfying `NodupKeys`.
* `raise HTTPException` is modelled by returning `Except ApiError` together
  with the (unchanged) store: every handler returns the pair
  `(Except ApiError result) × Store`, mirroring that a raise before any dict
  write leaves the module-level dictionary untouched.
* Pydantic `model_dump(exclude_unset=True)` on an Update model is modelled by
  wrapping every Update field in an outer `Option` meaning "explicitly present
  in the request body": `none` = absent from the payload, `some v` = present
  with value `v`.  For fields that are themselves `Optional` in Python, the
  update field is `Option (Option _)`, so an explicit JSON `null` is
  `some none`, distinct from an absent field.
* The server-side id default (`id: UUID = Field(default_factory=uuid4)` on the
  Base/Create models) is modelled by `mk*Create` constructors receiving the
  caller-supplied id (`Option Nat`) and the uuid the factory would produce
  (`fresh : Nat`), resolving the id field to `caller.getD fresh` — exactly
  Pydantic's semantics: the factory runs only when the field is absent.
-/

set_option autoImplicit false

namespace SimpleMicroservices

/-- In-memory store: association list from identifier to record,
modelling a Python `dict` keyed by UUID. -/
abbrev Store (α : Type) := List (Nat × α)

/-- `dict[k]` / `k in dict`: first entry whose key is `k`. -/
def findKey {α : Type} : Store α → Nat → Option α
  | [], _ => none
  | (k', v) :: t, k => if k = k' then some v else findKey t k

/-- `dict[k] = v`: overwrite in place when the key is present, append
otherwise (a `dict` keeps insertion position on overwrite). -/
def putKey {α : Type} : Store α → Nat → α → Store α
  | [], k, v => [(k, v)]
  | (k', v') :: t, k, v => if k = k' then (k, v) :: t else (k', v') :: putKey t k v

/-- `del dict[k]`: remove the (unique, under `NodupKeys`) entry with key `k`. -/
def delKey {α : Type} : Store α → Nat → Store α
  | [], _ => []
  | (k', v') :: t, k => if k = k' then t else (k', v') :: delKey t k

/-- `k in dict`. -/
def hasKey {α : Type} (s : Store α) (k : Nat) : Bool := (findKey s k).isSome

/-- The keys of the store, with multiplicity. -/
def storeKeys {α : Type} (s : Store α) : List Nat := s.map (·.1)

/-- A store represents a Python `dict` exactly when its keys are distinct. -/
abbrev NodupKeys {α : Type} (s : Store α) : Prop := (storeKeys s).Nodup

/-- `list(dict.values())`: the records in the store, in insertion order. -/
def storeValues {α : Type} (s : Store α) : List α := s.map (·.2)

/-- The errors raised by the handlers via `HTTPException`. -/
inductive ApiError
  | notFound
  | conflict
  deriving DecidableEq, Repr

/-- HTTP status code attached to each `HTTPException` in src/main.py:
404 for every "... not found", 400 for the Address duplicate-id conflict. -/
def ApiError.statusCode : ApiError → Nat
  | .notFound => 404
  | .conflict => 400

/-- `status_code=201` on every POST route decorator in src/main.py. -/
def createSuccessStatus : Nat := 201

/- ------------------------------------------------------------------------
Exercise (src/models/exercise.py, handlers in src/main.py lines 110-161).
------------------------------------------------------------------------ -/

/-- `ExerciseRead` from src/models/exercise.py: `ExerciseBase` fields plus
the `created_at` / `updated_at` audit timestamps. -/
structure ExerciseRead where
  id : Nat
  name : String
  muscle_group : String
  equipment : Option String
  difficulty : String
  instructions : String
  calories_per_minute : Option Int
  created_at : Nat
  updated_at : Nat
  deriving DecidableEq, Repr

/-- `ExerciseCreate` from src/models/exercise.py: exactly the `ExerciseBase`
fields.  The `id` field here is the value after Pydantic validation, i.e.
after the `default_factory=uuid4` default has been applied when the caller
omitted the field (see `mkExerciseCreate`). -/
structure ExerciseCreate where
  id : Nat
  name : String
  muscle_group : String
  equipment : Option String
  difficulty : String
  instructions : String
  calories_per_minute : Option Int
  deriving DecidableEq, Repr

/-- Pydantic validation of an `ExerciseCreate` body: `caller_id` is the id the
request carried (if any) and `fresh` is the uuid that `default_factory=uuid4`
would produce; the factory only runs when the field is absent. -/
def mkExerciseCreate (caller_id : Option Nat) (fresh : Nat)
    (name muscle_group : String) (equipment : Option String)
    (difficulty instructions : String) (calories_per_minute : Option Int) :
    ExerciseCreate :=
  { id := caller_id.getD fresh
    name := name
    muscle_group := muscle_group
    equipment := equipment
    difficulty := difficulty
    instructions := instructions
    calories_per_minute := calories_per_minute }

/-- `ExerciseUpdate` from src/models/exercise.py: every field optional, and
the id deliberately absent ("exercise ID is taken from the path, not the
body").  The outer `Option` records whether the field was explicitly present
in the request body (`model_dump(exclude_unset=True)` semantics). -/
structure ExerciseUpdate where
  name : Option String
  muscle_group : Option String
  equipment : Option (Option String)
  difficulty : Option String
  instructions : Option String
  calories_per_minute : Option (Option Int)
  deriving DecidableEq, Repr

/-- `ExerciseRead(**exercise.model_dump())`: every `ExerciseBase` field,
including the payload's `id`, is passed explicitly, so only the two audit
timestamps fall back to their `datetime.utcnow` default factories. -/
def exerciseReadOfCreate (p : ExerciseCreate) (now : Nat) : ExerciseRead :=
  { id := p.id
    name := p.name
    muscle_group := p.muscle_group
    equipment := p.equipment
    difficulty := p.difficulty
    instructions := p.instructions
    calories_per_minute := p.calories_per_minute
    created_at := now
    updated_at := now }

/-- The PATCH merge in `update_exercise` (src/main.py lines 151-153):
`stored = exercises[id].model_dump(); stored.update(update.model_dump(
exclude_unset=True)); ExerciseRead(**stored)`.  Keys absent from the update
dump keep the stored value; `id`, `created_at` and `updated_at` are never in
the update dump. -/
def mergeExercise (r : ExerciseRead) (u : ExerciseUpdate) : ExerciseRead :=
  { id := r.id
    name := u.name.getD r.name
    muscle_group := u.muscle_group.getD r.muscle_group
    equipment := u.equipment.getD r.equipment
    difficulty := u.difficulty.getD r.difficulty
    instructions := u.instructions.getD r.instructions
    calories_per_minute := u.calories_per_minute.getD r.calories_per_minute
    created_at := r.created_at
    updated_at := r.updated_at }

/-- `create_exercise` (src/main.py lines 110-114): build the Read model from
the payload dump and store it under its own id.  No duplicate check. -/
def create_exercise (s : Store ExerciseRead) (p : ExerciseCreate) (now : Nat) :
    Except ApiError ExerciseRead × Store ExerciseRead :=
  let exercise_read := exerciseReadOfCreate p now
  (.ok exercise_read, putKey s exercise_read.id exercise_read)

/-- `get_exercise` (src/main.py lines 136-140). -/
def get_exercise (s : Store ExerciseRead) (exercise_id : Nat) :
    Except ApiError ExerciseRead × Store ExerciseRead :=
  match findKey s exercise_id with
  | none => (.error .notFound, s)
  | some r => (.ok r, s)

/-- `replace_exercise` (src/main.py lines 142-145): unconditional
`exercises[exercise_id] = ExerciseRead(**exercise.model_dump())` — no
existence check, and the stored record's embedded id is the payload's. -/
def replace_exercise (s : Store ExerciseRead) (exercise_id : Nat)
    (p : ExerciseCreate) (now : Nat) :
    Except ApiError ExerciseRead × Store ExerciseRead :=
  let r := exerciseReadOfCreate p now
  (.ok r, putKey s exercise_id r)

/-- `update_exercise` (src/main.py lines 147-154). -/
def update_exercise (s : Store ExerciseRead) (exercise_id : Nat)
    (u : ExerciseUpdate) : Except ApiError ExerciseRead × Store ExerciseRead :=
  match findKey s exercise_id with
  | none => (.error .notFound, s)
  | some r =>
      let r' := mergeExercise r u
      (.ok r', putKey s exercise_id r')

/-- `delete_exercise` (src/main.py lines 156-161). -/
def delete_exercise (s : Store ExerciseRead) (exercise_id : Nat) :
    Except ApiError String × Store ExerciseRead :=
  match findKey s exercise_id with
  | none => (.error .notFound, s)
  | some _ => (.ok "Exercise deleted successfully", delKey s exercise_id)

/-- `list_exercises` (src/main.py lines 116-134): start from
`list(exercises.values())` and narrow by each supplied filter in order,
each an exact (case-sensitive) equality test. -/
def list_exercises (s : Store ExerciseRead)
    (name muscle_group equipment difficulty : Option String) :
    List ExerciseRead :=
  let results := storeValues s
  let results := match name with
    | none => results
    | some v => results.filter (fun e => e.name == v)
  let results := match muscle_group with
    | none => results
    | some v => results.filter (fun e => e.muscle_group == v)
  let results := match equipment with
    | none => results
    | some v => results.filter (fun e => e.equipment == some v)
  let results := match difficulty with
    | none => results
    | some v => results.filter (fun e => e.difficulty == v)
  results

/- ------------------------------------------------------------------------
Workout (src/models/workout.py, handlers in src/main.py lines 225-273).
------------------------------------------------------------------------ -/

/-- `WorkoutRead` from src/models/workout.py: `WorkoutBase` fields plus the
audit timestamps.  `workout_date` is a `date`, modelled as its canonical
`YYYY-MM-DD` string. -/
structure WorkoutRead where
  id : Nat
  user_name : String
  workout_date : String
  exercises : List String
  duration_minutes : Option Int
  calories_burned : Option Int
  notes : Option String
  created_at : Nat
  updated_at : Nat
  deriving DecidableEq, Repr

/-- `WorkoutCreate` from src/models/workout.py: exactly the `WorkoutBase`
fields, with `id` the value after Pydantic validation (see
`mkWorkoutCreate`). -/
structure WorkoutCreate where
  id : Nat
  user_name : String
  workout_date : String
  exercises : List String
  duration_minutes : Option Int
  calories_burned : Option Int
  notes : Option String
  deriving DecidableEq, Repr

/-- Pydantic validation of a `WorkoutCreate` body: the `default_factory=uuid4`
id default only runs when the caller omitted the field. -/
def mkWorkoutCreate (caller_id : Option Nat) (fresh : Nat)
    (user_name workout_date : String) (exercises : List String)
    (duration_minutes calories_burned : Option Int) (notes : Option String) :
    WorkoutCreate :=
  { id := caller_id.getD fresh
    user_name := user_name
    workout_date := workout_date
    exercises := exercises
    duration_minutes := duration_minutes
    calories_burned := calories_burned
    notes := notes }

/-- `WorkoutUpdate` from src/models/workout.py: every field optional, id
absent ("workout ID is taken from the path, not the body"); outer `Option`
is `exclude_unset` presence. -/
structure WorkoutUpdate where
  user_name : Option String
  workout_date : Option String
  exercises : Option (List String)
  duration_minutes : Option (Option Int)
  calories_burned : Option (Option Int)
  notes : Option (Option String)
  deriving DecidableEq, Repr

/-- `WorkoutRead(**workout.model_dump())`: all `WorkoutBase` fields copied
from the payload, audit timestamps from their `datetime.utcnow` factories. -/
def workoutReadOfCreate (p : WorkoutCreate) (now : Nat) : WorkoutRead :=
  { id := p.id
    user_name := p.user_name
    workout_date := p.workout_date
    exercises := p.exercises
    duration_minutes := p.duration_minutes
    calories_burned := p.calories_burned
    notes := p.notes
    created_at := now
    updated_at := now }

/-- The PATCH merge in `update_workout` (src/main.py lines 263-265), same
dump/update/rebuild shape as `mergeExercise`. -/
def mergeWorkout (r : WorkoutRead) (u : WorkoutUpdate) : WorkoutRead :=
  { id := r.id
    user_name := u.user_name.getD r.user_name
    workout_date := u.workout_date.getD r.workout_date
    exercises := u.exercises.getD r.exercises
    duration_minutes := u.duration_minutes.getD r.duration_minutes
    calories_burned := u.calories_burned.getD r.calories_burned
    notes := u.notes.getD r.notes
    created_at := r.created_at
    updated_at := r.updated_at }

/-- `create_workout` (src/main.py lines 225-229). -/
def create_workout (s : Store WorkoutRead) (p : WorkoutCreate) (now : Nat) :
    Except ApiError WorkoutRead × Store WorkoutRead :=
  let workout_read := workoutReadOfCreate p now
  (.ok workout_read, putKey s workout_read.id workout_read)

/-- `get_workout` (src/main.py lines 248-252). -/
def get_workout (s : Store WorkoutRead) (workout_id : Nat) :
    Except ApiError WorkoutRead × Store WorkoutRead :=
  match findKey s workout_id with
  | none => (.error .notFound, s)
  | some r => (.ok r, s)

/-- `replace_workout` (src/main.py lines 254-257): unconditional overwrite
under the path id, record built from the payload dump. -/
def replace_workout (s : Store WorkoutRead) (workout_id : Nat)
    (p : WorkoutCreate) (now : Nat) :
    Except ApiError WorkoutRead × Store WorkoutRead :=
  let r := workoutReadOfCreate p now
  (.ok r, putKey s workout_id r)

/-- `update_workout` (src/main.py lines 259-266). -/
def update_workout (s : Store WorkoutRead) (workout_id : Nat)
    (u : WorkoutUpdate) : Except ApiError WorkoutRead × Store WorkoutRead :=
  match findKey s workout_id with
  | none => (.error .notFound, s)
  | some r =>
      let r' := mergeWorkout r u
      (.ok r', putKey s workout_id r')

/-- `delete_workout` (src/main.py lines 268-273). -/
def delete_workout (s : Store WorkoutRead) (workout_id : Nat) :
    Except ApiError String × Store WorkoutRead :=
  match findKey s workout_id with
  | none => (.error .notFound, s)
  | some _ => (.ok "Workout deleted successfully", delKey s workout_id)

/-- The duration filter predicate of `list_workouts` (src/main.py line 244):
`w.duration_minutes and w.duration_minutes >= duration_minutes`.  Python
truthiness makes both `None` and `0` fail the first conjunct, so a workout
with `duration_minutes == 0` is dropped even when `0 >= d`. -/
def workoutDurationFilterKeeps (w : WorkoutRead) (d : Int) : Bool :=
  match w.duration_minutes with
  | none => false
  | some m => m != 0 && d ≤ m

/-- `list_workouts` (src/main.py lines 231-246).  `workout_date` compares
`str(w.workout_date) == workout_date`, i.e. canonical-string equality. -/
def list_workouts (s : Store WorkoutRead)
    (user_name workout_date : Option String) (duration_minutes : Option Int) :
    List WorkoutRead :=
  let results := storeValues s
  let results := match user_name with
    | none => results
    | some v => results.filter (fun w => w.user_name == v)
  let results := match workout_date with
    | none => results
    | some v => results.filter (fun w => w.workout_date == v)
  let results := match duration_minutes with
    | none => results
    | some d => results.filter (fun w => workoutDurationFilterKeeps w d)
  results

/- ------------------------------------------------------------------------
Person (handlers in src/main.py lines 166-220; the shape definitions in
src/models/person.py are not among the sources, so the shapes are modelled
from the spec, mirroring the sibling Exercise/Workout models that are).
------------------------------------------------------------------------ -/

/-- Modelled from the spec: the embedded address entries of a Person's
`addresses` list.  src/models/person.py is missing from the sources; the
spec says the list is free-form, and src/main.py lines 200-203 access
`addr.city` and `addr.country` of each entry. -/
structure PersonAddress where
  city : String
  country : String
  deriving DecidableEq, Repr

/-- Modelled from the spec: `PersonRead` (src/models/person.py is missing).
Domain fields are those src/main.py filters on — uni, first_name, last_name,
email, phone, birth_date, addresses — plus the spec's Read-shape audit
timestamps (`birth_date` as canonical `YYYY-MM-DD` string). -/
structure PersonRead where
  id : Nat
  uni : String
  first_name : String
  last_name : String
  email : String
  phone : String
  birth_date : String
  addresses : List PersonAddress
  created_at : Nat
  updated_at : Nat
  deriving DecidableEq, Repr

/-- Modelled from the spec: `PersonCreate` (src/models/person.py is missing).
Per the spec's Create shape the identifier is structurally present and
server-assigned via UUID generation when absent, like the sibling
`ExerciseCreate`/`WorkoutCreate` models in the sources; `id` is the value
after validation (see `mkPersonCreate`). -/
structure PersonCreate where
  id : Nat
  uni : String
  first_name : String
  last_name : String
  email : String
  phone : String
  birth_date : String
  addresses : List PersonAddress
  deriving DecidableEq, Repr

/-- Modelled from the spec: Pydantic validation of a `PersonCreate` body,
id default firing only when the caller omitted the field. -/
def mkPersonCreate (caller_id : Option Nat) (fresh : Nat)
    (uni first_name last_name email phone birth_date : String)
    (addresses : List PersonAddress) : PersonCreate :=
  { id := caller_id.getD fresh
    uni := uni
    first_name := first_name
    last_name := last_name
    email := email
    phone := phone
    birth_date := birth_date
    addresses := addresses }

/-- Modelled from the spec: `PersonUpdate` (src/models/person.py is missing).
Every field optional, id absent; outer `Option` is `exclude_unset`
presence, as in the sibling Update models in the sources. -/
structure PersonUpdate where
  uni : Option String
  first_name : Option String
  last_name : Option String
  email : Option String
  phone : Option String
  birth_date : Option String
  addresses : Option (List PersonAddress)
  deriving DecidableEq, Repr

/-- `PersonRead(**person.model_dump())` in `create_person`: all Create
fields copied, audit timestamps from their factories. -/
def personReadOfCreate (p : PersonCreate) (now : Nat) : PersonRead :=
  { id := p.id
    uni := p.uni
    first_name := p.first_name
    last_name := p.last_name
    email := p.email
    phone := p.phone
    birth_date := p.birth_date
    addresses := p.addresses
    created_at := now
    updated_at := now }

/-- The PATCH merge in `update_person` (src/main.py lines 217-219). -/
def mergePerson (r : PersonRead) (u : PersonUpdate) : PersonRead :=
  { id := r.id
    uni := u.uni.getD r.uni
    first_name := u.first_name.getD r.first_name
    last_name := u.last_name.getD r.last_name
    email := u.email.getD r.email
    phone := u.phone.getD r.phone
    birth_date := u.birth_date.getD r.birth_date
    addresses := u.addresses.getD r.addresses
    created_at := r.created_at
    updated_at := r.updated_at }

/-- `create_person` (src/main.py lines 166-171): no duplicate check. -/
def create_person (s : Store PersonRead) (p : PersonCreate) (now : Nat) :
    Except ApiError PersonRead × Store PersonRead :=
  let person_read := personReadOfCreate p now
  (.ok person_read, putKey s person_read.id person_read)

/-- `get_person` (src/main.py lines 207-211). -/
def get_person (s : Store PersonRead) (person_id : Nat) :
    Except ApiError PersonRead × Store PersonRead :=
  match findKey s person_id with
  | none => (.error .notFound, s)
  | some r => (.ok r, s)

/-- `update_person` (src/main.py lines 213-220). -/
def update_person (s : Store PersonRead) (person_id : Nat) (u : PersonUpdate) :
    Except ApiError PersonRead × Store PersonRead :=
  match findKey s person_id with
  | none => (.error .notFound, s)
  | some r =>
      let r' := mergePerson r u
      (.ok r', putKey s person_id r')

/- ------------------------------------------------------------------------
Address (handlers in src/main.py lines 62-105; src/models/address.py is
not among the sources, so the shapes are modelled from the spec).
------------------------------------------------------------------------ -/

/-- Modelled from the spec: `AddressRead` (src/models/address.py is missing).
Domain fields are those src/main.py filters on — street, city, state,
postal_code, country — plus the spec's Read-shape audit timestamps. -/
structure AddressRead where
  id : Nat
  street : String
  city : String
  state : String
  postal_code : String
  country : String
  created_at : Nat
  updated_at : Nat
  deriving DecidableEq, Repr

/-- Modelled from the spec: `AddressCreate` (src/models/address.py is
missing).  The create shape carries the identifier (src/main.py line 64
reads `address.id` and conflict-checks it); `id` is the value after
validation, caller-supplied or server-generated when absent. -/
structure AddressCreate where
  id : Nat
  street : String
  city : String
  state : String
  postal_code : String
  country : String
  deriving DecidableEq, Repr

/-- Modelled from the spec: `AddressUpdate` (src/models/address.py is
missing).  Every domain field optional, outer `Option` is `exclude_unset`
presence. -/
structure AddressUpdate where
  street : Option String
  city : Option String
  state : Option String
  postal_code : Option String
  country : Option String
  deriving DecidableEq, Repr

/-- `AddressRead(**address.model_dump())` in `create_address`. -/
def addressReadOfCreate (a : AddressCreate) (now : Nat) : AddressRead :=
  { id := a.id
    street := a.street
    city := a.city
    state := a.state
    postal_code := a.postal_code
    country := a.country
    created_at := now
    updated_at := now }

/-- The PATCH merge in `update_address` (src/main.py lines 102-104). -/
def mergeAddress (r : AddressRead) (u : AddressUpdate) : AddressRead :=
  { id := r.id
    street := u.street.getD r.street
    city := u.city.getD r.city
    state := u.state.getD r.state
    postal_code := u.postal_code.getD r.postal_code
    country := u.country.getD r.country
    created_at := r.created_at
    updated_at := r.updated_at }

/-- `create_address` (src/main.py lines 62-67): the only create with a
duplicate-identifier check — 400 conflict when `address.id in addresses`. -/
def create_address (s : Store AddressRead) (a : AddressCreate) (now : Nat) :
    Except ApiError AddressRead × Store AddressRead :=
  if hasKey s a.id then (.error .conflict, s)
  else (.ok (addressReadOfCreate a now), putKey s a.id (addressReadOfCreate a now))

/-- `get_address` (src/main.py lines 92-96). -/
def get_address (s : Store AddressRead) (address_id : Nat) :
    Except ApiError AddressRead × Store AddressRead :=
  match findKey s address_id with
  | none => (.error .notFound, s)
  | some r => (.ok r, s)

/-- `update_address` (src/main.py lines 98-105). -/
def update_address (s : Store AddressRead) (address_id : Nat)
    (u : AddressUpdate) : Except ApiError AddressRead × Store AddressRead :=
  match findKey s address_id with
  | none => (.error .notFound, s)
  | some r =>
      let r' := mergeAddress r u
      (.ok r', putKey s address_id r')

/- ------------------------------------------------------------------------
Operation sequences over the Exercise store (for the reachable-state
identifier-coherence claim) and shared fixtures.
------------------------------------------------------------------------ -/

/-- Key/identifier coherence: every key of the store maps to a record whose
embedded id field equals that key. -/
abbrev IdCoherent {α : Type} (idOf : α → Nat) (s : Store α) : Prop :=
  ∀ p ∈ s, idOf p.2 = p.1

/-- One request against the Exercise collection that can change its store. -/
inductive ExerciseOp
  | createOp (p : ExerciseCreate) (now : Nat)
  | replaceOp (exercise_id : Nat) (p : ExerciseCreate) (now : Nat)
  | updateOp (exercise_id : Nat) (u : ExerciseUpdate)
  | deleteOp (exercise_id : Nat)
  deriving DecidableEq, Repr

/-- The store left behind by one Exercise request (an erroring request
leaves the store unchanged, as in the handlers). -/
def applyExerciseOp (s : Store ExerciseRead) : ExerciseOp → Store ExerciseRead
  | .createOp p now => (create_exercise s p now).2
  | .replaceOp exercise_id p now => (replace_exercise s exercise_id p now).2
  | .updateOp exercise_id u => (update_exercise s exercise_id u).2
  | .deleteOp exercise_id => (delete_exercise s exercise_id).2

/-- The store reached by a sequence of Exercise requests. -/
def runExerciseOps (s : Store ExerciseRead) (ops : List ExerciseOp) :
    Store ExerciseRead :=
  ops.foldl applyExerciseOp s

/- Concrete fixtures used by counterexamples and witnesses. -/

/-- A create payload whose caller supplied id 5 while the server-side uuid
factory would have produced 7. -/
def exPayloadCallerId : ExerciseCreate :=
  mkExerciseCreate (some 5) 7 "Bench Press" "Chest" (some "Barbell")
    "Intermediate" "Lie on bench, grip barbell, press up" (some 6)

/-- Sample Exercise create payload (resolved id 1). -/
def sampleExCreate : ExerciseCreate :=
  mkExerciseCreate (some 1) 1 "Push-ups" "Chest" none "Beginner"
    "Start in plank position, lower body, push up" (some 8)

/-- Sample stored Exercise record, created at instant 5. -/
def sampleExRead : ExerciseRead := exerciseReadOfCreate sampleExCreate 5

/-- One-record Exercise store. -/
def sampleExStore : Store ExerciseRead := [(1, sampleExRead)]

/-- Exercise PATCH body carrying only `difficulty`. -/
def sampleExUpdate : ExerciseUpdate :=
  { name := none
    muscle_group := none
    equipment := none
    difficulty := some "Advanced"
    instructions := none
    calories_per_minute := none }

/-- Sample Workout create payload (resolved id 1). -/
def sampleWkCreate : WorkoutCreate :=
  mkWorkoutCreate (some 1) 1 "John Doe" "2025-09-14"
    ["Push-ups", "Squats", "Planks"] (some 45) (some 320) (some "Felt great")

/-- Sample stored Workout record, created at instant 5. -/
def sampleWkRead : WorkoutRead := workoutReadOfCreate sampleWkCreate 5

/-- One-record Workout store. -/
def sampleWkStore : Store WorkoutRead := [(1, sampleWkRead)]

/-- Workout PATCH body carrying only `notes`. -/
def sampleWkUpdate : WorkoutUpdate :=
  { user_name := none
    workout_date := none
    exercises := none
    duration_minutes := none
    calories_burned := none
    notes := some (some "Short but intense session") }

/-- A stored workout whose `duration_minutes` is 0. -/
def zeroDurationWorkout : WorkoutRead :=
  workoutReadOfCreate
    (mkWorkoutCreate (some 1) 1 "John Doe" "2025-09-14" [] (some 0) none none) 0

/-- Workout store holding only the zero-duration workout. -/
def zeroDurationStore : Store WorkoutRead := [(1, zeroDurationWorkout)]

/-- Sample Address create payload with caller-supplied id 1. -/
def sampleAddrCreate : AddressCreate :=
  { id := 1
    street := "116th St"
    city := "New York"
    state := "NY"
    postal_code := "10027"
    country := "USA" }

/-- One-record Address store holding the sample address (created at 5). -/
def sampleAddrStore : Store AddressRead := [(1, addressReadOfCreate sampleAddrCreate 5)]

/-- Address create payload with id 2, not present in `sampleAddrStore`. -/
def freshAddrCreate : AddressCreate :=
  { id := 2
    street := "Broadway"
    city := "New York"
    state := "NY"
    postal_code := "10025"
    country := "USA" }

/-- Sample Person create payload (resolved id 1). -/
def samplePersonCreate : PersonCreate :=
  mkPersonCreate (some 1) 1 "ab1234" "Ada" "Lovelace" "ada at example dot com"
    "555-0100" "1815-12-10" [{ city := "London", country := "UK" }]

/-- One-record Person store. -/
def samplePersonStore : Store PersonRead :=
  [(1, personReadOfCreate samplePersonCreate 5)]

/-- Person PATCH body carrying only `phone`. -/
def samplePersonUpdate : PersonUpdate :=
  { uni := none
    first_name := none
    last_name := none
    email := none
    phone := some "555-0199"
    birth_date := none
    addresses := none }

/-- Address PATCH body carrying only `city`. -/
def sampleAddrUpdate : AddressUpdate :=
  { street := none
    city := some "Boston"
    state := none
    postal_code := none
    country := none }

/-- Replace payload whose embedded id (2) differs from the path id it will
be stored under. -/
def replacePayloadIdTwo : ExerciseCreate :=
  mkExerciseCreate (some 2) 9 "Squat" "Legs" none "Beginner"
    "Stand, bend knees, rise" none

/-- The Exercise store reached from the empty store by the single request
`PUT /exercises/1` with body `replacePayloadIdTwo`. -/
def replaceReachedStore : Store ExerciseRead :=
  runExerciseOps [] [.replaceOp 1 replacePayloadIdTwo 0]

/- Store lemmas and shared helpers. -/

theorem findKey_putKey_self {α : Type} (s : Store α) (k : Nat) (v : α) :
    findKey (putKey s k v) k = some v := by
  induction s with
  | nil => simp [putKey, findKey]
  | cons hd t ih =>
      obtain ⟨k', v'⟩ := hd
      by_cases h : k = k' <;> simp [putKey, findKey, h, ih]

theorem findKey_putKey_ne {α : Type} (s : Store α) (k k' : Nat) (v : α)
    (h : k' ≠ k) : findKey (putKey s k v) k' = findKey s k' := by
  induction s with
  | nil => simp [putKey, findKey, h]
  | cons hd t ih =>
      obtain ⟨k₀, v₀⟩ := hd
      by_cases hk : k = k₀
      · subst hk
        simp [putKey, findKey, h]
      · by_cases hk' : k' = k₀ <;> simp [putKey, findKey, hk, hk', ih]

theorem findKey_delKey_ne {α : Type} (s : Store α) (k k' : Nat)
    (h : k' ≠ k) : findKey (delKey s k) k' = findKey s k' := by
  induction s with
  | nil => simp [delKey, findKey]
  | cons hd t ih =>
      obtain ⟨k₀, v₀⟩ := hd
      by_cases hk : k = k₀
      · subst hk
        simp [delKey, findKey, h]
      · by_cases hk' : k' = k₀ <;> simp [delKey, findKey, hk, hk', ih]

theorem findKey_eq_none_of_not_mem {α : Type} (s : Store α) (k : Nat)
    (h : k ∉ storeKeys s) : findKey s k = none := by
  induction s with
  | nil => simp [findKey]
  | cons hd t ih =>
      obtain ⟨k₀, v₀⟩ := hd
      simp only [storeKeys, List.map_cons, List.mem_cons] at h
      push_neg at h
      simp [findKey, h.1, ih (by simpa [storeKeys] using h.2)]

theorem findKey_delKey_self {α : Type} (s : Store α) (k : Nat)
    (hnd : NodupKeys s) : findKey (delKey s k) k = none := by
  induction s with
  | nil => simp [delKey, findKey]
  | cons hd t ih =>
      obtain ⟨k₀, v₀⟩ := hd
      have hnd' : NodupKeys t := (List.nodup_cons.mp hnd).2
      by_cases hk : k = k₀
      · subst hk
        have hmem : k ∉ storeKeys t := (List.nodup_cons.mp hnd).1
        simp [delKey, findKey_eq_none_of_not_mem t k hmem]
      · simp [delKey, findKey, hk, ih hnd']

theorem findKey_mem {α : Type} (s : Store α) (k : Nat) (r : α)
    (h : findKey s k = some r) : (k, r) ∈ s := by
  induction s with
  | nil => simp [findKey] at h
  | cons hd t ih =>
      obtain ⟨k₀, v₀⟩ := hd
      by_cases hk : k = k₀
      · subst hk
        simp [findKey] at h
        subst h
        exact List.mem_cons_self _ _
      · simp only [findKey, if_neg hk] at h
        exact List.mem_cons_of_mem _ (ih h)

theorem mem_putKey {α : Type} (s : Store α) (k : Nat) (v : α) (p : Nat × α)
    (h : p ∈ putKey s k v) : p = (k, v) ∨ p ∈ s := by
  induction s with
  | nil => simpa [putKey] using h
  | cons hd t ih =>
      obtain ⟨k₀, v₀⟩ := hd
      by_cases hk : k = k₀
      · subst hk
        simp only [putKey, if_pos] at h
        rcases List.mem_cons.mp h with h | h
        · exact Or.inl h
        · exact Or.inr (List.mem_cons_of_mem _ h)
      · simp only [putKey, if_neg hk] at h
        rcases List.mem_cons.mp h with h | h
        · exact Or.inr (by simp [h])
        · rcases ih h with h' | h'
          · exact Or.inl h'
          · exact Or.inr (List.mem_cons_of_mem _ h')

theorem mem_delKey {α : Type} (s : Store α) (k : Nat) (p : Nat × α)
    (h : p ∈ delKey s k) : p ∈ s := by
  induction s with
  | nil => simp [delKey] at h
  | cons hd t ih =>
      obtain ⟨k₀, v₀⟩ := hd
      by_cases hk : k = k₀
      · subst hk
        simp only [delKey, if_pos] at h
        exact List.mem_cons_of_mem _ h
      · simp only [delKey, if_neg hk] at h
        rcases List.mem_cons.mp h with h | h
        · simp [h]
        · exact List.mem_cons_of_mem _ (ih h)

theorem length_putKey_of_not_hasKey {α : Type} (s : Store α) (k : Nat) (v : α)
    (h : findKey s k = none) : (putKey s k v).length = s.length + 1 := by
  induction s with
  | nil => simp [putKey]
  | cons hd t ih =>
      obtain ⟨k₀, v₀⟩ := hd
      by_cases hk : k = k₀
      · simp [findKey, hk] at h
      · simp only [findKey, if_neg hk] at h
        simp [putKey, hk, ih h]

/-- `(o = none → o.getD a = a)` and `(o = some v → o.getD a = v)`:
field-selectivity of a single merged field. -/
theorem getD_pair {β : Type} (o : Option β) (a : β) :
    (o = none → o.getD a = a) ∧ ∀ v, o = some v → o.getD a = v := by
  cases o <;> simp

/- ------------------------------------------------------------------------
Claim C2 (corrected).
------------------------------------------------------------------------ -/

/-- Claim C2 counterexample: on the Exercise collection, a Create payload
carrying caller-supplied id 5 (while the server-side uuid factory would
have produced 7) is stored and returned with identifier 5 — the
caller-supplied id becomes the stored record's identifier, so it is not
discarded as the claim states. -/
theorem create_discards_caller_id_counterexample :
    (create_exercise [] exPayloadCallerId 0).1 =
      .ok (exerciseReadOfCreate exPayloadCallerId 0) ∧
    (exerciseReadOfCreate exPayloadCallerId 0).id = 5 ∧
    findKey (create_exercise [] exPayloadCallerId 0).2 5 =
      some (exerciseReadOfCreate exPayloadCallerId 0) ∧
    (5 : Nat) ≠ 7 := by
  refine ⟨rfl, rfl, ?_, by decide⟩
  decide

/-- Claim C2 (amended): for Person, Exercise and Workout creates, the stored
and returned identifier is the payload's id; it is generated server-side
(by the model's uuid default factory) only when the caller omits the field,
and a caller-supplied id is honored and becomes the stored record's
identifier. -/
theorem create_id_from_payload :
    (∀ (caller : Option Nat) (fresh : Nat) (nm mg : String)
        (eqp : Option String) (df ins : String) (cal : Option Int)
        (s : Store ExerciseRead) (now : Nat),
      (create_exercise s (mkExerciseCreate caller fresh nm mg eqp df ins cal) now).1 =
        .ok (exerciseReadOfCreate (mkExerciseCreate caller fresh nm mg eqp df ins cal) now) ∧
      findKey (create_exercise s (mkExerciseCreate caller fresh nm mg eqp df ins cal) now).2
          (mkExerciseCreate caller fresh nm mg eqp df ins cal).id =
        some (exerciseReadOfCreate (mkExerciseCreate caller fresh nm mg eqp df ins cal) now) ∧
      (exerciseReadOfCreate (mkExerciseCreate caller fresh nm mg eqp df ins cal) now).id =
        (mkExerciseCreate caller fresh nm mg eqp df ins cal).id ∧
      (∀ c, caller = some c → (mkExerciseCreate caller fresh nm mg eqp df ins cal).id = c) ∧
      (caller = none → (mkExerciseCreate caller fresh nm mg eqp df ins cal).id = fresh)) ∧
    (∀ (caller : Option Nat) (fresh : Nat) (un wd : String) (exs : List String)
        (dm cb : Option Int) (nts : Option String)
        (s : Store WorkoutRead) (now : Nat),
      (create_workout s (mkWorkoutCreate caller fresh un wd exs dm cb nts) now).1 =
        .ok (workoutReadOfCreate (mkWorkoutCreate caller fresh un wd exs dm cb nts) now) ∧
      findKey (create_workout s (mkWorkoutCreate caller fresh un wd exs dm cb nts) now).2
          (mkWorkoutCreate caller fresh un wd exs dm cb nts).id =
        some (workoutReadOfCreate (mkWorkoutCreate caller fresh un wd exs dm cb nts) now) ∧
      (∀ c, caller = some c → (mkWorkoutCreate caller fresh un wd exs dm cb nts).id = c) ∧
      (caller = none → (mkWorkoutCreate caller fresh un wd exs dm cb nts).id = fresh)) ∧
    (∀ (caller : Option Nat) (fresh : Nat) (uni fn ln em ph bd : String)
        (ads : List PersonAddress) (s : Store PersonRead) (now : Nat),
      (create_person s (mkPersonCreate caller fresh uni fn ln em ph bd ads) now).1 =
        .ok (personReadOfCreate (mkPersonCreate caller fresh uni fn ln em ph bd ads) now) ∧
      findKey (create_person s (mkPersonCreate caller fresh uni fn ln em ph bd ads) now).2
          (mkPersonCreate caller fresh uni fn ln em ph bd ads).id =
        some (personReadOfCreate (mkPersonCreate caller fresh uni fn ln em ph bd ads) now) ∧
      (∀ c, caller = some c → (mkPersonCreate caller fresh uni fn ln em ph bd ads).id = c) ∧
      (caller = none → (mkPersonCreate caller fresh uni fn ln em ph bd ads).id = fresh)) := by
  refine ⟨?_, ?_, ?_⟩
  · intro caller fresh nm mg eqp df ins cal s now
    refine ⟨rfl, findKey_putKey_self s _ _, rfl, ?_, ?_⟩
    · intro c hc
      simp [mkExerciseCreate, hc]
    · intro hc
      simp [mkExerciseCreate, hc]
  · intro caller fresh un wd exs dm cb nts s now
    refine ⟨rfl, findKey_putKey_self s _ _, ?_, ?_⟩
    · intro c hc
      simp [mkWorkoutCreate, hc]
    · intro hc
      simp [mkWorkoutCreate, hc]
  · intro caller fresh uni fn ln em ph bd ads s now
    refine ⟨rfl, findKey_putKey_self s _ _, ?_, ?_⟩
    · intro c hc
      simp [mkPersonCreate, hc]
    · intro hc
      simp [mkPersonCreate, hc]

/-- Witness for `create_id_from_payload` at a concrete input: a caller
supplying id 5 gets id 5 stored. -/
theorem create_id_from_payload_witness :
    (some 5 : Option Nat) = some 5 ∧
    (mkExerciseCreate (some 5) 7 "Bench Press" "Chest" (some "Barbell")
      "Intermediate" "Lie on bench, grip barbell, press up" (some 6)).id = 5 :=
  ⟨rfl,
    (create_id_from_payload.1 (some 5) 7 "Bench Press" "Chest" (some "Barbell")
      "Intermediate" "Lie on bench, grip barbell, press up" (some 6) [] 0).2.2.2.1
      5 rfl⟩

/- ------------------------------------------------------------------------
Claim C3 (confirmed).
------------------------------------------------------------------------ -/

/-- Claim C3: Replace (PUT, Exercise and Workout) never fails with NotFound:
for every store (in particular one not containing the path id) it stores the
rebuilt record under the path identifier and returns its Read shape, the
stored record carries freshly derived created_at and updated_at timestamps
(both the request instant, independent of any previously stored record),
and on an absent identifier the store grows by one entry. -/
theorem replace_upserts_fresh_timestamps :
    (∀ (s : Store ExerciseRead) (k : Nat) (p : ExerciseCreate) (now : Nat),
      replace_exercise s k p now =
        (.ok (exerciseReadOfCreate p now), putKey s k (exerciseReadOfCreate p now)) ∧
      findKey (replace_exercise s k p now).2 k = some (exerciseReadOfCreate p now) ∧
      (exerciseReadOfCreate p now).created_at = now ∧
      (exerciseReadOfCreate p now).updated_at = now ∧
      (findKey s k = none →
        ((replace_exercise s k p now).2).length = s.length + 1)) ∧
    (∀ (s : Store WorkoutRead) (k : Nat) (p : WorkoutCreate) (now : Nat),
      replace_workout s k p now =
        (.ok (workoutReadOfCreate p now), putKey s k (workoutReadOfCreate p now)) ∧
      findKey (replace_workout s k p now).2 k = some (workoutReadOfCreate p now) ∧
      (workoutReadOfCreate p now).created_at = now ∧
      (workoutReadOfCreate p now).updated_at = now ∧
      (findKey s k = none →
        ((replace_workout s k p now).2).length = s.length + 1)) := by
  constructor
  · intro s k p now
    exact ⟨rfl, findKey_putKey_self s _ _, rfl, rfl,
      fun h => length_putKey_of_not_hasKey s k _ h⟩
  · intro s k p now
    exact ⟨rfl, findKey_putKey_self s _ _, rfl, rfl,
      fun h => length_putKey_of_not_hasKey s k _ h⟩

/-- Witness for `replace_upserts_fresh_timestamps`: replacing id 3 in the
empty Exercise store creates a one-entry store. -/
theorem replace_upserts_fresh_timestamps_witness :
    findKey ([] : Store ExerciseRead) 3 = none ∧
    ((replace_exercise ([] : Store ExerciseRead) 3 sampleExCreate 8).2).length =
      ([] : Store ExerciseRead).length + 1 :=
  ⟨rfl, (replace_upserts_fresh_timestamps.1 [] 3 sampleExCreate 8).2.2.2.2 rfl⟩

/- ------------------------------------------------------------------------
Claim C6 (confirmed).
------------------------------------------------------------------------ -/

/-- Claim C6: PATCH on an identifier absent from the store fails with
NotFound (status 404) for all four entity stores, and the store handed back
is exactly the input store — size and contents unchanged. -/
theorem patch_unknown_id_not_found :
    (∀ (s : Store ExerciseRead) (k : Nat) (u : ExerciseUpdate),
      findKey s k = none →
      update_exercise s k u = (.error .notFound, s) ∧
      ApiError.notFound.statusCode = 404) ∧
    (∀ (s : Store WorkoutRead) (k : Nat) (u : WorkoutUpdate),
      findKey s k = none →
      update_workout s k u = (.error .notFound, s) ∧
      ApiError.notFound.statusCode = 404) ∧
    (∀ (s : Store PersonRead) (k : Nat) (u : PersonUpdate),
      findKey s k = none →
      update_person s k u = (.error .notFound, s) ∧
      ApiError.notFound.statusCode = 404) ∧
    (∀ (s : Store AddressRead) (k : Nat) (u : AddressUpdate),
      findKey s k = none →
      update_address s k u = (.error .notFound, s) ∧
      ApiError.notFound.statusCode = 404) := by
  refine ⟨?_, ?_, ?_, ?_⟩
  · intro s k u h
    exact ⟨by simp [update_exercise, h], rfl⟩
  · intro s k u h
    exact ⟨by simp [update_workout, h], rfl⟩
  · intro s k u h
    exact ⟨by simp [update_person, h], rfl⟩
  · intro s k u h
    exact ⟨by simp [update_address, h], rfl⟩

/-- Witness for `patch_unknown_id_not_found`: PATCH of id 2 against the
one-record Exercise store (which only holds id 1). -/
theorem patch_unknown_id_not_found_witness :
    findKey sampleExStore 2 = none ∧
    update_exercise sampleExStore 2 sampleExUpdate = (.error .notFound, sampleExStore) :=
  ⟨by decide, (patch_unknown_id_not_found.1 sampleExStore 2 sampleExUpdate (by decide)).1⟩

/- ------------------------------------------------------------------------
Claim C8 (confirmed).
------------------------------------------------------------------------ -/

/-- Claim C8: Create/Get round-trip for Exercise and Workout — Create
returns the rebuilt record, an immediate Get with the returned identifier
succeeds with that very record (leaving the store as Create left it), and
every domain field of the returned record equals the payload's. -/
theorem create_get_roundtrip :
    (∀ (s : Store ExerciseRead) (p : ExerciseCreate) (now : Nat),
      create_exercise s p now =
        (.ok (exerciseReadOfCreate p now), putKey s p.id (exerciseReadOfCreate p now)) ∧
      get_exercise (create_exercise s p now).2 (exerciseReadOfCreate p now).id =
        (.ok (exerciseReadOfCreate p now), (create_exercise s p now).2) ∧
      (exerciseReadOfCreate p now).id = p.id ∧
      (exerciseReadOfCreate p now).name = p.name ∧
      (exerciseReadOfCreate p now).muscle_group = p.muscle_group ∧
      (exerciseReadOfCreate p now).equipment = p.equipment ∧
      (exerciseReadOfCreate p now).difficulty = p.difficulty ∧
      (exerciseReadOfCreate p now).instructions = p.instructions ∧
      (exerciseReadOfCreate p now).calories_per_minute = p.calories_per_minute) ∧
    (∀ (s : Store WorkoutRead) (p : WorkoutCreate) (now : Nat),
      create_workout s p now =
        (.ok (workoutReadOfCreate p now), putKey s p.id (workoutReadOfCreate p now)) ∧
      get_workout (create_workout s p now).2 (workoutReadOfCreate p now).id =
        (.ok (workoutReadOfCreate p now), (create_workout s p now).2) ∧
      (workoutReadOfCreate p now).id = p.id ∧
      (workoutReadOfCreate p now).user_name = p.user_name ∧
      (workoutReadOfCreate p now).workout_date = p.workout_date ∧
      (workoutReadOfCreate p now).exercises = p.exercises ∧
      (workoutReadOfCreate p now).duration_minutes = p.duration_minutes ∧
      (workoutReadOfCreate p now).calories_burned = p.calories_burned ∧
      (workoutReadOfCreate p now).notes = p.notes) := by
  constructor
  · intro s p now
    refine ⟨rfl, ?_, rfl, rfl, rfl, rfl, rfl, rfl, rfl⟩
    show get_exercise (putKey s p.id (exerciseReadOfCreate p now)) p.id = _
    simp only [get_exercise, findKey_putKey_self]
    rfl
  · intro s p now
    refine ⟨rfl, ?_, rfl, rfl, rfl, rfl, rfl, rfl, rfl⟩
    show get_workout (putKey s p.id (workoutReadOfCreate p now)) p.id = _
    simp only [get_workout, findKey_putKey_self]
    rfl

/- ------------------------------------------------------------------------
Claim C1 (confirmed).
------------------------------------------------------------------------ -/

/-- Claim C1: PATCH is field-selective on every entity store.  For a record
stored under an existing identifier and any Update-shape payload, the merged
record written back (and returned) keeps the old record's value on every
field not explicitly present in the payload — in particular id, created_at
and updated_at, which no Update shape carries — and takes the payload's
value on every field explicitly present. -/
theorem patch_is_field_selective :
    (∀ (s : Store ExerciseRead) (k : Nat) (u : ExerciseUpdate) (r : ExerciseRead),
      findKey s k = some r →
      update_exercise s k u =
        (.ok (mergeExercise r u), putKey s k (mergeExercise r u)) ∧
      (mergeExercise r u).id = r.id ∧
      (mergeExercise r u).created_at = r.created_at ∧
      (mergeExercise r u).updated_at = r.updated_at ∧
      ((u.name = none → (mergeExercise r u).name = r.name) ∧
        ∀ v, u.name = some v → (mergeExercise r u).name = v) ∧
      ((u.muscle_group = none → (mergeExercise r u).muscle_group = r.muscle_group) ∧
        ∀ v, u.muscle_group = some v → (mergeExercise r u).muscle_group = v) ∧
      ((u.equipment = none → (mergeExercise r u).equipment = r.equipment) ∧
        ∀ v, u.equipment = some v → (mergeExercise r u).equipment = v) ∧
      ((u.difficulty = none → (mergeExercise r u).difficulty = r.difficulty) ∧
        ∀ v, u.difficulty = some v → (mergeExercise r u).difficulty = v) ∧
      ((u.instructions = none → (mergeExercise r u).instructions = r.instructions) ∧
        ∀ v, u.instructions = some v → (mergeExercise r u).instructions = v) ∧
      ((u.calories_per_minute = none →
          (mergeExercise r u).calories_per_minute = r.calories_per_minute) ∧
        ∀ v, u.calories_per_minute = some v →
          (mergeExercise r u).calories_per_minute = v)) ∧
    (∀ (s : Store WorkoutRead) (k : Nat) (u : WorkoutUpdate) (r : WorkoutRead),
      findKey s k = some r →
      update_workout s k u =
        (.ok (mergeWorkout r u), putKey s k (mergeWorkout r u)) ∧
      (mergeWorkout r u).id = r.id ∧
      (mergeWorkout r u).created_at = r.created_at ∧
      (mergeWorkout r u).updated_at = r.updated_at ∧
      ((u.user_name = none → (mergeWorkout r u).user_name = r.user_name) ∧
        ∀ v, u.user_name = some v → (mergeWorkout r u).user_name = v) ∧
      ((u.workout_date = none → (mergeWorkout r u).workout_date = r.workout_date) ∧
        ∀ v, u.workout_date = some v → (mergeWorkout r u).workout_date = v) ∧
      ((u.exercises = none → (mergeWorkout r u).exercises = r.exercises) ∧
        ∀ v, u.exercises = some v → (mergeWorkout r u).exercises = v) ∧
      ((u.duration_minutes = none →
          (mergeWorkout r u).duration_minutes = r.duration_minutes) ∧
        ∀ v, u.duration_minutes = some v → (mergeWorkout r u).duration_minutes = v) ∧
      ((u.calories_burned = none →
          (mergeWorkout r u).calories_burned = r.calories_burned) ∧
        ∀ v, u.calories_burned = some v → (mergeWorkout r u).calories_burned = v) ∧
      ((u.notes = none → (mergeWorkout r u).notes = r.notes) ∧
        ∀ v, u.notes = some v → (mergeWorkout r u).notes = v)) ∧
    (∀ (s : Store PersonRead) (k : Nat) (u : PersonUpdate) (r : PersonRead),
      findKey s k = some r →
      update_person s k u =
        (.ok (mergePerson r u), putKey s k (mergePerson r u)) ∧
      (mergePerson r u).id = r.id ∧
      (mergePerson r u).created_at = r.created_at ∧
      (mergePerson r u).updated_at = r.updated_at ∧
      ((u.uni = none → (mergePerson r u).uni = r.uni) ∧
        ∀ v, u.uni = some v → (mergePerson r u).uni = v) ∧
      ((u.first_name = none → (mergePerson r u).first_name = r.first_name) ∧
        ∀ v, u.first_name = some v → (mergePerson r u).first_name = v) ∧
      ((u.last_name = none → (mergePerson r u).last_name = r.last_name) ∧
        ∀ v, u.last_name = some v → (mergePerson r u).last_name = v) ∧
      ((u.email = none → (mergePerson r u).email = r.email) ∧
        ∀ v, u.email = some v → (mergePerson r u).email = v) ∧
      ((u.phone = none → (mergePerson r u).phone = r.phone) ∧
        ∀ v, u.phone = some v → (mergePerson r u).phone = v) ∧
      ((u.birth_date = none → (mergePerson r u).birth_date = r.birth_date) ∧
        ∀ v, u.birth_date = some v → (mergePerson r u).birth_date = v) ∧
      ((u.addresses = none → (mergePerson r u).addresses = r.addresses) ∧
        ∀ v, u.addresses = some v → (mergePerson r u).addresses = v)) ∧
    (∀ (s : Store AddressRead) (k : Nat) (u : AddressUpdate) (r : AddressRead),
      findKey s k = some r →
      update_address s k u =
        (.ok (mergeAddress r u), putKey s k (mergeAddress r u)) ∧
      (mergeAddress r u).id = r.id ∧
      (mergeAddress r u).created_at = r.created_at ∧
      (mergeAddress r u).updated_at = r.updated_at ∧
      ((u.street = none → (mergeAddress r u).street = r.street) ∧
        ∀ v, u.street = some v → (mergeAddress r u).street = v) ∧
      ((u.city = none → (mergeAddress r u).city = r.city) ∧
        ∀ v, u.city = some v → (mergeAddress r u).city = v) ∧
      ((u.state = none → (mergeAddress r u).state = r.state) ∧
        ∀ v, u.state = some v → (mergeAddress r u).state = v) ∧
      ((u.postal_code = none → (mergeAddress r u).postal_code = r.postal_code) ∧
        ∀ v, u.postal_code = some v → (mergeAddress r u).postal_code = v) ∧
      ((u.country = none → (mergeAddress r u).country = r.country) ∧
        ∀ v, u.country = some v → (mergeAddress r u).country = v)) := by
  refine ⟨?_, ?_, ?_, ?_⟩
  · intro s k u r h
    exact ⟨by simp [update_exercise, h], rfl, rfl, rfl, getD_pair _ _,
      getD_pair _ _, getD_pair _ _, getD_pair _ _, getD_pair _ _, getD_pair _ _⟩
  · intro s k u r h
    exact ⟨by simp [update_workout, h], rfl, rfl, rfl, getD_pair _ _,
      getD_pair _ _, getD_pair _ _, getD_pair _ _, getD_pair _ _, getD_pair _ _⟩
  · intro s k u r h
    exact ⟨by simp [update_person, h], rfl, rfl, rfl, getD_pair _ _,
      getD_pair _ _, getD_pair _ _, getD_pair _ _, getD_pair _ _, getD_pair _ _,
      getD_pair _ _⟩
  · intro s k u r h
    exact ⟨by simp [update_address, h], rfl, rfl, rfl, getD_pair _ _,
      getD_pair _ _, getD_pair _ _, getD_pair _ _, getD_pair _ _⟩

/-- Witness for `patch_is_field_selective`: PATCH with only `difficulty`
present against the one-record Exercise store keeps name and timestamps and
sets difficulty. -/
theorem patch_is_field_selective_witness :
    findKey sampleExStore 1 = some sampleExRead ∧
    update_exercise sampleExStore 1 sampleExUpdate =
      (.ok (mergeExercise sampleExRead sampleExUpdate),
        putKey sampleExStore 1 (mergeExercise sampleExRead sampleExUpdate)) :=
  ⟨by decide,
    (patch_is_field_selective.1 sampleExStore 1 sampleExUpdate sampleExRead
      (by decide)).1⟩

/- ------------------------------------------------------------------------
Claim C10 (confirmed).
------------------------------------------------------------------------ -/

/-- Claim C10: for Person, Exercise and Workout, a Create whose payload id
is already a key of the store raises no error: it returns the rebuilt record
(the POST routes answer 201), the entry under that identifier now holds the
new record, and every other entry is untouched. -/
theorem create_overwrites_duplicate_id :
    (∀ (s : Store ExerciseRead) (p : ExerciseCreate) (now : Nat) (old : ExerciseRead),
      findKey s p.id = some old →
      (create_exercise s p now).1 = .ok (exerciseReadOfCreate p now) ∧
      findKey (create_exercise s p now).2 p.id = some (exerciseReadOfCreate p now) ∧
      (∀ k', k' ≠ p.id → findKey (create_exercise s p now).2 k' = findKey s k')) ∧
    (∀ (s : Store WorkoutRead) (p : WorkoutCreate) (now : Nat) (old : WorkoutRead),
      findKey s p.id = some old →
      (create_workout s p now).1 = .ok (workoutReadOfCreate p now) ∧
      findKey (create_workout s p now).2 p.id = some (workoutReadOfCreate p now) ∧
      (∀ k', k' ≠ p.id → findKey (create_workout s p now).2 k' = findKey s k')) ∧
    (∀ (s : Store PersonRead) (p : PersonCreate) (now : Nat) (old : PersonRead),
      findKey s p.id = some old →
      (create_person s p now).1 = .ok (personReadOfCreate p now) ∧
      findKey (create_person s p now).2 p.id = some (personReadOfCreate p now) ∧
      (∀ k', k' ≠ p.id → findKey (create_person s p now).2 k' = findKey s k')) ∧
    createSuccessStatus = 201 := by
  refine ⟨?_, ?_, ?_, rfl⟩
  · intro s p now old _
    exact ⟨rfl, findKey_putKey_self s _ _,
      fun k' hk' => findKey_putKey_ne s p.id k' _ hk'⟩
  · intro s p now old _
    exact ⟨rfl, findKey_putKey_self s _ _,
      fun k' hk' => findKey_putKey_ne s p.id k' _ hk'⟩
  · intro s p now old _
    exact ⟨rfl, findKey_putKey_self s _ _,
      fun k' hk' => findKey_putKey_ne s p.id k' _ hk'⟩

/-- Witness for `create_overwrites_duplicate_id`: re-creating id 1 over the
one-record Exercise store succeeds and overwrites. -/
theorem create_overwrites_duplicate_id_witness :
    findKey sampleExStore sampleExCreate.id = some sampleExRead ∧
    findKey (create_exercise sampleExStore sampleExCreate 9).2 sampleExCreate.id =
      some (exerciseReadOfCreate sampleExCreate 9) :=
  ⟨by decide,
    (create_overwrites_duplicate_id.1 sampleExStore sampleExCreate 9 sampleExRead
      (by decide)).2.1⟩

/- ------------------------------------------------------------------------
Claim C4 (corrected).
------------------------------------------------------------------------ -/

/-- The duration filter keeps a workout exactly when its duration_minutes is
present, nonzero, and at least the threshold (Python truthiness drops 0). -/
theorem workoutDurationFilterKeeps_iff (w : WorkoutRead) (d : Int) :
    workoutDurationFilterKeeps w d = true ↔
      ∃ m, w.duration_minutes = some m ∧ m ≠ 0 ∧ d ≤ m := by
  cases h : w.duration_minutes with
  | none => simp [workoutDurationFilterKeeps, h]
  | some m => simp [workoutDurationFilterKeeps, h]

/-- Claim C4 counterexample: a stored workout with duration_minutes = 0 and
the filter threshold d = 0.  Its duration is at least d (0 ≥ 0), so the
claim says it is retained, yet `list_workouts` drops it: the filter
`w.duration_minutes and w.duration_minutes >= d` fails on the falsy 0. -/
theorem duration_filter_not_min_threshold_counterexample :
    zeroDurationWorkout ∈ storeValues zeroDurationStore ∧
    zeroDurationWorkout.duration_minutes = some 0 ∧
    (0 : Int) ≤ 0 ∧
    zeroDurationWorkout ∉ list_workouts zeroDurationStore none none (some 0) := by
  refine ⟨by decide, rfl, by decide, by decide⟩

/-- Claim C4 (amended): every supplied Exercise filter and the Workout
user_name and workout_date filters are case-sensitive exact-equality
AND-conjuncts over the scanned records; the Workout duration_minutes filter
is a minimum threshold applied only to workouts whose duration_minutes is
set and nonzero: for a supplied integer d, a stored workout passes that
filter if and only if its duration_minutes is some m with m ≠ 0 and m ≥ d. -/
theorem list_filters_exact_equality (se : Store ExerciseRead)
    (sw : Store WorkoutRead) (nm mg eqp df un wd : Option String)
    (dm : Option Int) :
    (∀ e, e ∈ list_exercises se nm mg eqp df ↔
      e ∈ storeValues se ∧
      (∀ v, nm = some v → e.name = v) ∧
      (∀ v, mg = some v → e.muscle_group = v) ∧
      (∀ v, eqp = some v → e.equipment = some v) ∧
      (∀ v, df = some v → e.difficulty = v)) ∧
    (∀ w, w ∈ list_workouts sw un wd dm ↔
      w ∈ storeValues sw ∧
      (∀ v, un = some v → w.user_name = v) ∧
      (∀ v, wd = some v → w.workout_date = v) ∧
      (∀ d, dm = some d → ∃ m, w.duration_minutes = some m ∧ m ≠ 0 ∧ d ≤ m)) := by
  constructor
  · intro e
    rcases nm with _ | v1 <;> rcases mg with _ | v2 <;>
      rcases eqp with _ | v3 <;> rcases df with _ | v4 <;>
      simp [list_exercises, List.mem_filter, and_assoc] <;> tauto
  · intro w
    rcases un with _ | v1 <;> rcases wd with _ | v2 <;> rcases dm with _ | d <;>
      simp [list_workouts, List.mem_filter, workoutDurationFilterKeeps_iff,
        and_assoc] <;> tauto

/-- Witness for `list_filters_exact_equality`: the sample exercise passes
the muscle_group filter "Chest". -/
theorem list_filters_exact_equality_witness :
    sampleExRead ∈ list_exercises sampleExStore none (some "Chest") none none := by
  refine ((list_filters_exact_equality sampleExStore sampleWkStore none
      (some "Chest") none none none none none).1 sampleExRead).mpr
    ⟨by decide, ?_, ?_, ?_, ?_⟩
  · intro v hv
    exact nomatch hv
  · intro v hv
    rw [← Option.some.inj hv]
    decide
  · intro v hv
    exact nomatch hv
  · intro v hv
    exact nomatch hv

/- ------------------------------------------------------------------------
Claim C5 (confirmed, spec-modelled Address shapes).
------------------------------------------------------------------------ -/

/-- Claim C5: Address create with an identifier already in the store fails
with the Conflict error (status 400) and hands back the store unchanged; a
create whose identifier is not present stores the rebuilt Read record under
it and returns it (the POST route answers 201). -/
theorem address_create_conflict_on_duplicate (s : Store AddressRead)
    (a : AddressCreate) (now : Nat) :
    (hasKey s a.id = true →
      create_address s a now = (.error .conflict, s) ∧
      ApiError.conflict.statusCode = 400) ∧
    (hasKey s a.id = false →
      create_address s a now =
        (.ok (addressReadOfCreate a now), putKey s a.id (addressReadOfCreate a now)) ∧
      findKey (putKey s a.id (addressReadOfCreate a now)) a.id =
        some (addressReadOfCreate a now) ∧
      createSuccessStatus = 201) := by
  constructor
  · intro h
    exact ⟨by simp [create_address, h], rfl⟩
  · intro h
    exact ⟨by simp [create_address, h], findKey_putKey_self s _ _, rfl⟩

/-- Witness for `address_create_conflict_on_duplicate`, both branches: id 1
conflicts against the one-record Address store, id 2 inserts. -/
theorem address_create_conflict_on_duplicate_witness :
    (hasKey sampleAddrStore sampleAddrCreate.id = true ∧
      create_address sampleAddrStore sampleAddrCreate 9 =
        (.error .conflict, sampleAddrStore)) ∧
    (hasKey sampleAddrStore freshAddrCreate.id = false ∧
      create_address sampleAddrStore freshAddrCreate 9 =
        (.ok (addressReadOfCreate freshAddrCreate 9),
          putKey sampleAddrStore freshAddrCreate.id (addressReadOfCreate freshAddrCreate 9))) :=
  ⟨⟨by decide,
      ((address_create_conflict_on_duplicate sampleAddrStore sampleAddrCreate 9).1
        (by decide)).1⟩,
    ⟨by decide,
      ((address_create_conflict_on_duplicate sampleAddrStore freshAddrCreate 9).2
        (by decide)).1⟩⟩

/- ------------------------------------------------------------------------
Claim C9 (confirmed).
------------------------------------------------------------------------ -/

/-- Claim C9: Delete on a present identifier removes exactly that entry — a
subsequent Get on it yields NotFound while every other key still maps to
its old record; Delete on an absent identifier yields NotFound (404) and
hands back the store unchanged.  (For Exercise and Workout, the entities
with a DELETE route; the store is a well-formed dict, i.e. `NodupKeys`.) -/
theorem delete_removes_exactly_one_entry :
    (∀ (s : Store ExerciseRead) (k : Nat), NodupKeys s →
      (∀ r, findKey s k = some r →
        delete_exercise s k = (.ok "Exercise deleted successfully", delKey s k) ∧
        get_exercise (delete_exercise s k).2 k = (.error .notFound, delKey s k) ∧
        (∀ k', k' ≠ k → findKey (delKey s k) k' = findKey s k')) ∧
      (findKey s k = none →
        delete_exercise s k = (.error .notFound, s) ∧
        ApiError.notFound.statusCode = 404)) ∧
    (∀ (s : Store WorkoutRead) (k : Nat), NodupKeys s →
      (∀ r, findKey s k = some r →
        delete_workout s k = (.ok "Workout deleted successfully", delKey s k) ∧
        get_workout (delete_workout s k).2 k = (.error .notFound, delKey s k) ∧
        (∀ k', k' ≠ k → findKey (delKey s k) k' = findKey s k')) ∧
      (findKey s k = none →
        delete_workout s k = (.error .notFound, s) ∧
        ApiError.notFound.statusCode = 404)) := by
  constructor
  · intro s k hnd
    constructor
    · intro r h
      have hdel : delete_exercise s k =
          (.ok "Exercise deleted successfully", delKey s k) := by
        simp [delete_exercise, h]
      refine ⟨hdel, ?_, fun k' hk' => findKey_delKey_ne s k k' hk'⟩
      rw [hdel]
      simp [get_exercise, findKey_delKey_self s k hnd]
    · intro h
      exact ⟨by simp [delete_exercise, h], rfl⟩
  · intro s k hnd
    constructor
    · intro r h
      have hdel : delete_workout s k =
          (.ok "Workout deleted successfully", delKey s k) := by
        simp [delete_workout, h]
      refine ⟨hdel, ?_, fun k' hk' => findKey_delKey_ne s k k' hk'⟩
      rw [hdel]
      simp [get_workout, findKey_delKey_self s k hnd]
    · intro h
      exact ⟨by simp [delete_workout, h], rfl⟩

/-- Witness for `delete_removes_exactly_one_entry`: deleting id 1 from the
one-record Exercise store makes the next Get answer NotFound. -/
theorem delete_removes_exactly_one_entry_witness :
    NodupKeys sampleExStore ∧
    findKey sampleExStore 1 = some sampleExRead ∧
    get_exercise (delete_exercise sampleExStore 1).2 1 =
      (.error .notFound, delKey sampleExStore 1) :=
  ⟨by decide, by decide,
    ((delete_removes_exactly_one_entry.1 sampleExStore 1 (by decide)).1
      sampleExRead (by decide)).2.1⟩

/- ------------------------------------------------------------------------
Claim C7 (corrected).
------------------------------------------------------------------------ -/

/-- Key/id coherence survives a `putKey` whose inserted record's id equals
the key. -/
theorem idCoherent_putKey {α : Type} (idOf : α → Nat) (s : Store α) (k : Nat)
    (v : α) (hs : IdCoherent idOf s) (hv : idOf v = k) :
    IdCoherent idOf (putKey s k v) := by
  intro p hp
  rcases mem_putKey s k v p hp with h | h
  · rw [h]
    exact hv
  · exact hs p h

/-- Key/id coherence survives a `delKey`. -/
theorem idCoherent_delKey {α : Type} (idOf : α → Nat) (s : Store α) (k : Nat)
    (hs : IdCoherent idOf s) : IdCoherent idOf (delKey s k) :=
  fun p hp => hs p (mem_delKey s k p hp)

/-- Claim C7 counterexample: from the empty Exercise store (trivially
coherent), the single reachable step `PUT /exercises/1` with a payload whose
id is 2 leaves a store whose key 1 maps to a record with embedded id 2. -/
theorem store_key_id_coherence_counterexample :
    replaceReachedStore = runExerciseOps [] [.replaceOp 1 replacePayloadIdTwo 0] ∧
    findKey replaceReachedStore 1 = some (exerciseReadOfCreate replacePayloadIdTwo 0) ∧
    (exerciseReadOfCreate replacePayloadIdTwo 0).id = 2 ∧
    (1 : Nat) ≠ 2 := by
  refine ⟨rfl, by decide, rfl, by decide⟩

/-- Claim C7 (amended): key/identifier coherence — every key maps to a
record whose embedded id equals it — is an invariant of create, update and
delete on every entity store, and of replace exactly when the payload's id
equals the path identifier; update never changes a stored record's id.
Replace with a payload id differing from the path id is the sole violation
(see the counterexample). -/
theorem store_key_id_coherence_amended :
    (∀ (s : Store ExerciseRead), IdCoherent ExerciseRead.id s →
      (∀ k r, findKey s k = some r → r.id = k) ∧
      (∀ p now, IdCoherent ExerciseRead.id (create_exercise s p now).2) ∧
      (∀ k u, IdCoherent ExerciseRead.id (update_exercise s k u).2) ∧
      (∀ k, IdCoherent ExerciseRead.id (delete_exercise s k).2) ∧
      (∀ k p now, p.id = k →
        IdCoherent ExerciseRead.id (replace_exercise s k p now).2) ∧
      (∀ k u r, findKey s k = some r → (mergeExercise r u).id = r.id)) ∧
    (∀ (s : Store WorkoutRead), IdCoherent WorkoutRead.id s →
      (∀ k r, findKey s k = some r → r.id = k) ∧
      (∀ p now, IdCoherent WorkoutRead.id (create_workout s p now).2) ∧
      (∀ k u, IdCoherent WorkoutRead.id (update_workout s k u).2) ∧
      (∀ k, IdCoherent WorkoutRead.id (delete_workout s k).2) ∧
      (∀ k p now, p.id = k →
        IdCoherent WorkoutRead.id (replace_workout s k p now).2) ∧
      (∀ k u r, findKey s k = some r → (mergeWorkout r u).id = r.id)) ∧
    (∀ (s : Store PersonRead), IdCoherent PersonRead.id s →
      (∀ k r, findKey s k = some r → r.id = k) ∧
      (∀ p now, IdCoherent PersonRead.id (create_person s p now).2) ∧
      (∀ k u, IdCoherent PersonRead.id (update_person s k u).2)) ∧
    (∀ (s : Store AddressRead), IdCoherent AddressRead.id s →
      (∀ k r, findKey s k = some r → r.id = k) ∧
      (∀ a now, IdCoherent AddressRead.id (create_address s a now).2) ∧
      (∀ k u, IdCoherent AddressRead.id (update_address s k u).2)) := by
  refine ⟨?_, ?_, ?_, ?_⟩
  · intro s hs
    refine ⟨?_, ?_, ?_, ?_, ?_, ?_⟩
    · intro k r h
      exact hs (k, r) (findKey_mem s k r h)
    · intro p now
      exact idCoherent_putKey _ s _ _ hs rfl
    · intro k u
      cases h : findKey s k with
      | none => simpa [update_exercise, h] using hs
      | some r =>
          have hk : r.id = k := hs (k, r) (findKey_mem s k r h)
          simp only [update_exercise, h]
          exact idCoherent_putKey _ s k _ hs hk
    · intro k
      cases h : findKey s k with
      | none => simpa [delete_exercise, h] using hs
      | some r =>
          simp only [delete_exercise, h]
          exact idCoherent_delKey _ s k hs
    · intro k p now hpk
      exact idCoherent_putKey _ s k _ hs hpk
    · intro k u r _
      rfl
  · intro s hs
    refine ⟨?_, ?_, ?_, ?_, ?_, ?_⟩
    · intro k r h
      exact hs (k, r) (findKey_mem s k r h)
    · intro p now
      exact idCoherent_putKey _ s _ _ hs rfl
    · intro k u
      cases h : findKey s k with
      | none => simpa [update_workout, h] using hs
      | some r =>
          have hk : r.id = k := hs (k, r) (findKey_mem s k r h)
          simp only [update_workout, h]
          exact idCoherent_putKey _ s k _ hs hk
    · intro k
      cases h : findKey s k with
      | none => simpa [delete_workout, h] using hs
      | some r =>
          simp only [delete_workout, h]
          exact idCoherent_delKey _ s k hs
    · intro k p now hpk
      exact idCoherent_putKey _ s k _ hs hpk
    · intro k u r _
      rfl
  · intro s hs
    refine ⟨?_, ?_, ?_⟩
    · intro k r h
      exact hs (k, r) (findKey_mem s k r h)
    · intro p now
      exact idCoherent_putKey _ s _ _ hs rfl
    · intro k u
      cases h : findKey s k with
      | none => simpa [update_person, h] using hs
      | some r =>
          have hk : r.id = k := hs (k, r) (findKey_mem s k r h)
          simp only [update_person, h]
          exact idCoherent_putKey _ s k _ hs hk
  · intro s hs
    refine ⟨?_, ?_, ?_⟩
    · intro k r h
      exact hs (k, r) (findKey_mem s k r h)
    · intro a now
      by_cases h : hasKey s a.id
      · simpa [create_address, h] using hs
      · simp only [create_address, h]
        simpa using idCoherent_putKey _ s a.id (addressReadOfCreate a now) hs rfl
    · intro k u
      cases h : findKey s k with
      | none => simpa [update_address, h] using hs
      | some r =>
          have hk : r.id = k := hs (k, r) (findKey_mem s k r h)
          simp only [update_address, h]
          exact idCoherent_putKey _ s k _ hs hk

/-- Witness for `store_key_id_coherence_amended`: the one-record Exercise
store is coherent, and stays so after deleting id 1. -/
theorem store_key_id_coherence_amended_witness :
    IdCoherent ExerciseRead.id sampleExStore ∧
    IdCoherent ExerciseRead.id (delete_exercise sampleExStore 1).2 :=
  ⟨by decide,
    (store_key_id_coherence_amended.1 sampleExStore (by decide)).2.2.2.1 1⟩

end SimpleMicroservices
